import Mathlib

/-!
Shallow embedding of `src/main.py` (danfromdablock/NmapToolKit), a command-line
front end that builds and launches an nmap invocation.  Python strings are
modelled as Lean `String`s (lists of characters); Python `None`-able values as
`Option`; Python truthiness of strings (`if cfg.x:`) as "present and
non-empty"; an uncaught Python exception (`int()` on a malformed timing
response) as `Option.none` at the level of the whole interactive run.
-/

namespace NmapToolKit

/-- Bool test: does `p` occur at the head of `l`?  Used to model the anchored
regular expression match of `strip_url` character by character. -/
def begins : List Char → List Char → Bool
  | [], _ => true
  | _ :: _, [] => false
  | p :: ps, c :: cs => p == c && begins ps cs

/-- One optional scheme removal: the `(https?://)?` part of the regex in
`strip_url` (src/main.py:29).  The two alternatives are disjoint at the
fifth character, so checking them in either order matches the regex. -/
def stripSchemeChars (l : List Char) : List Char :=
  if begins "http://".data l then l.drop 7
  else if begins "https://".data l then l.drop 8
  else l

/-- One optional `www.` removal: the `(www\.)?` part of the regex in
`strip_url` (src/main.py:29). -/
def stripWwwChars (l : List Char) : List Char :=
  if begins "www.".data l then l.drop 4 else l

/-- `re.sub(r'^(https?://)?(www\.)?', '', target)` (src/main.py:28-29): the
anchored pattern matches exactly once, removing one optional scheme and then
one optional `www.`. -/
def strip_url (t : String) : String :=
  String.mk (stripWwwChars (stripSchemeChars t.data))

/-- The `www.` stage of the normalizer alone, lifted to `String`; used to
state what `strip_url` does after the scheme has been handled. -/
def strip_www (t : String) : String :=
  String.mk (stripWwwChars t.data)

/-- The Configuration Model: the namespace object read by `build_command`
(src/main.py:55-74).  Field names follow the Python attribute names. -/
structure Config where
  target : String
  skip_ping : Bool
  syn_scan : Bool
  connect_scan : Bool
  udp_scan : Bool
  version_detect : Bool
  script_default : Bool
  script_cats : Option String
  script_file : Option String
  os_detect : Bool
  decoy : Option String
  timing : Int
  ports : Option String
  output_normal : Option String
  output_xml : Option String
  output_grep : Option String
  output_json : Option String
  deriving DecidableEq, Repr

/-- `if cfg.x: cmd.extend([flag, cfg.x])` for an optional string attribute:
Python truthiness means a present but empty string contributes no tokens. -/
def optTokens (flag : String) (o : Option String) : List String :=
  match o with
  | some s => if s = "" then [] else [flag, s]
  | none => []

/-- `build_command` (src/main.py:55-74), with the successive `append`/`extend`
calls written as one concatenation in the same order. -/
def build_command (cfg : Config) : List String :=
  ["sudo", "nmap"]
  ++ (if cfg.skip_ping then ["-Pn"] else [])
  ++ (if cfg.syn_scan then ["-sS"] else [])
  ++ (if cfg.connect_scan then ["-sT"] else [])
  ++ (if cfg.udp_scan then ["-sU"] else [])
  ++ (if cfg.version_detect then ["-sV"] else [])
  ++ (if cfg.script_default then ["-sC"] else [])
  ++ optTokens "--script" cfg.script_cats
  ++ optTokens "--script" cfg.script_file
  ++ (if cfg.os_detect then ["-O"] else [])
  ++ optTokens "--decoy" cfg.decoy
  ++ ["-T" ++ toString cfg.timing]
  ++ optTokens "-p" cfg.ports
  ++ [cfg.target]
  ++ optTokens "-oN" cfg.output_normal
  ++ optTokens "-oX" cfg.output_xml
  ++ optTokens "-oG" cfg.output_grep
  ++ optTokens "-oJ" cfg.output_json

/-- Tokens for an optional field read off the spec's words: "script-category
selector (if set)" etc., where "set" means the optional value is present. -/
def setTokens (flag : String) (o : Option String) : List String :=
  match o with
  | some s => [flag, s]
  | none => []

/-- Modelled from the spec's §4.4 token-order sentence, word for word:
privilege-elevation prefix, tool name, skip-ping flag, SYN flag, connect
flag, UDP flag, version-detect flag, default-script flag, script-category
selector (if set), script-file selector (if set), OS-detect flag, decoy list
(if set), timing flag as a single combined token, port range (if set), the
target string, then output-file arguments in the order normal/XML/grepable/
JSON. -/
def buildCommandSpec (cfg : Config) : List String :=
  ["sudo", "nmap"]
  ++ (if cfg.skip_ping then ["-Pn"] else [])
  ++ (if cfg.syn_scan then ["-sS"] else [])
  ++ (if cfg.connect_scan then ["-sT"] else [])
  ++ (if cfg.udp_scan then ["-sU"] else [])
  ++ (if cfg.version_detect then ["-sV"] else [])
  ++ (if cfg.script_default then ["-sC"] else [])
  ++ setTokens "--script" cfg.script_cats
  ++ setTokens "--script" cfg.script_file
  ++ (if cfg.os_detect then ["-O"] else [])
  ++ setTokens "--decoy" cfg.decoy
  ++ ["-T" ++ toString cfg.timing]
  ++ setTokens "-p" cfg.ports
  ++ [cfg.target]
  ++ setTokens "-oN" cfg.output_normal
  ++ setTokens "-oX" cfg.output_xml
  ++ setTokens "-oG" cfg.output_grep
  ++ setTokens "-oJ" cfg.output_json

/-- No optional string field of the Configuration Model holds a present but
empty value.  Both Argument Sources only ever produce such configurations,
and on them Python truthiness and option-presence agree. -/
abbrev noBlankOptionals (cfg : Config) : Prop :=
  cfg.script_cats ≠ some "" ∧ cfg.script_file ≠ some "" ∧
  cfg.decoy ≠ some "" ∧ cfg.ports ≠ some "" ∧
  cfg.output_normal ≠ some "" ∧ cfg.output_xml ≠ some "" ∧
  cfg.output_grep ≠ some "" ∧ cfg.output_json ≠ some ""

/-- Characters of `l` with leading and trailing whitespace removed: Python
`str.strip()` (ASCII whitespace; exotic Unicode space classes are not
modelled). -/
def pyStripChars (l : List Char) : List Char :=
  ((l.dropWhile Char.isWhitespace).reverse.dropWhile Char.isWhitespace).reverse

/-- Python `str.strip()` on a string. -/
def pyStrip (s : String) : String :=
  String.mk (pyStripChars s.data)

/-- Helper for Python `str.split(',')`: accumulates the current piece in
reverse and cuts at every comma. -/
def pySplitCommaAux : List Char → List Char → List String
  | [], acc => [String.mk acc.reverse]
  | c :: cs, acc =>
    if c == ',' then String.mk acc.reverse :: pySplitCommaAux cs []
    else pySplitCommaAux cs (c :: acc)

/-- Python `str.split(',')`: cuts at every comma, keeps empty pieces, and
maps the empty string to `[""]`. -/
def pySplitComma (s : String) : List String :=
  pySplitCommaAux s.data []

/-- Decimal digit run to a number: `none` on a non-digit. -/
def digitsValAux : List Char → Nat → Option Nat
  | [], acc => some acc
  | c :: cs, acc =>
    if c.isDigit then digitsValAux cs (acc * 10 + (c.toNat - 48)) else none

/-- A non-empty run of decimal digits, or `none`. -/
def pyIntDigits : List Char → Option Nat
  | [] => none
  | l => digitsValAux l 0

/-- CPython `int(str)` on a decimal literal: surrounding whitespace is
ignored and one leading sign is allowed; anything else raises `ValueError`
(modelled as `none`).  Digit-group underscores are not modelled. -/
def pyInt (s : String) : Option Int :=
  match pyStripChars s.data with
  | '+' :: rest => (pyIntDigits rest).map Int.ofNat
  | '-' :: rest => (pyIntDigits rest).map (fun n => -(n : Int))
  | l => (pyIntDigits l).map Int.ofNat

/-- The raw lines typed at the nine prompts of `interactive_mode`
(src/main.py:77-99), in prompt order. -/
structure Answers where
  targetRaw : String
  choicesLine : String
  skipPingAns : String
  scriptCatsAns : String
  scriptFileAns : String
  decoyAns : String
  timingAns : String
  portsAns : String
  outputAns : String
  deriving DecidableEq, Repr

/-- `interactive_mode` (src/main.py:77-99).  `input().strip() or default`
becomes trim-then-default; `'n' in choices` becomes list membership of the
comma-split line; `int(input(...) or 4)` becomes: the literal empty response
gives 4, any other response is parsed by `pyInt`, and a parse failure (a
Python `ValueError` crash) makes the whole run return `none`. -/
def interactive_mode (a : Answers) : Option Config :=
  let target := strip_url (pyStrip a.targetRaw)
  let choices := pySplitComma a.choicesLine
  let timingRes : Option Int :=
    if a.timingAns = "" then some 4 else pyInt a.timingAns
  match timingRes with
  | none => none
  | some t => some {
      target := target
      skip_ping := begins "y".data (a.skipPingAns.data.map Char.toLower)
      syn_scan := decide ("1" ∈ choices)
      connect_scan := decide ("2" ∈ choices)
      udp_scan := decide ("3" ∈ choices)
      version_detect := decide ("4" ∈ choices)
      os_detect := decide ("5" ∈ choices)
      script_default := decide ("6" ∈ choices)
      script_cats := if pyStrip a.scriptCatsAns = "" then none else some (pyStrip a.scriptCatsAns)
      script_file := if pyStrip a.scriptFileAns = "" then none else some (pyStrip a.scriptFileAns)
      decoy := if pyStrip a.decoyAns = "" then none else some (pyStrip a.decoyAns)
      timing := t
      ports := some (if pyStrip a.portsAns = "" then "1-1000" else pyStrip a.portsAns)
      output_normal := some (if pyStrip a.outputAns = "" then "scan.txt" else pyStrip a.outputAns)
      output_xml := none
      output_grep := none
      output_json := none }

/-- The recognized options of one invocation before argparse validation
(src/main.py:32-52): `timing` is the integer following `-T` when that flag
was given, `none` when it was absent. -/
structure RawArgs where
  target : Option String
  interactive : Bool
  syn_scan : Bool
  connect_scan : Bool
  udp_scan : Bool
  version_detect : Bool
  script_default : Bool
  script_cats : Option String
  script_file : Option String
  os_detect : Bool
  skip_ping : Bool
  decoy : Option String
  timing : Option Int
  ports : Option String
  output_normal : Option String
  output_xml : Option String
  output_grep : Option String
  output_json : Option String
  deriving DecidableEq, Repr

/-- The namespace produced by a successful `parse_args` call, before `main`
normalizes the target. -/
structure Args where
  target : Option String
  interactive : Bool
  syn_scan : Bool
  connect_scan : Bool
  udp_scan : Bool
  version_detect : Bool
  script_default : Bool
  script_cats : Option String
  script_file : Option String
  os_detect : Bool
  skip_ping : Bool
  decoy : Option String
  timing : Int
  ports : Option String
  output_normal : Option String
  output_xml : Option String
  output_grep : Option String
  output_json : Option String
  deriving DecidableEq, Repr

/-- `parse_args` (src/main.py:32-52): argparse with
`-T type=int choices=range(0,6) default=4` accepts a given timing value only
when it lies in {0..5}, exiting with a usage error otherwise, and fills in 4
when the flag is absent.  Everything else passes through. -/
def parse_args (r : RawArgs) : Except String Args :=
  match r.timing with
  | some t =>
    if 0 ≤ t ∧ t < 6 then
      Except.ok {
        target := r.target, interactive := r.interactive,
        syn_scan := r.syn_scan, connect_scan := r.connect_scan,
        udp_scan := r.udp_scan, version_detect := r.version_detect,
        script_default := r.script_default, script_cats := r.script_cats,
        script_file := r.script_file, os_detect := r.os_detect,
        skip_ping := r.skip_ping, decoy := r.decoy, timing := t,
        ports := r.ports, output_normal := r.output_normal,
        output_xml := r.output_xml, output_grep := r.output_grep,
        output_json := r.output_json }
    else Except.error "argument -T/--timing: invalid choice"
  | none =>
    Except.ok {
      target := r.target, interactive := r.interactive,
      syn_scan := r.syn_scan, connect_scan := r.connect_scan,
      udp_scan := r.udp_scan, version_detect := r.version_detect,
      script_default := r.script_default, script_cats := r.script_cats,
      script_file := r.script_file, os_detect := r.os_detect,
      skip_ping := r.skip_ping, decoy := r.decoy, timing := 4,
      ports := r.ports, output_normal := r.output_normal,
      output_xml := r.output_xml, output_grep := r.output_grep,
      output_json := r.output_json }

/-- `args.target = strip_url(args.target); cfg = args` (src/main.py:107-108):
the non-interactive configuration is the parsed namespace with the positional
target normalized. -/
def argsConfig (a : Args) (t : String) : Config :=
  { target := strip_url t, skip_ping := a.skip_ping,
    syn_scan := a.syn_scan, connect_scan := a.connect_scan,
    udp_scan := a.udp_scan, version_detect := a.version_detect,
    script_default := a.script_default, script_cats := a.script_cats,
    script_file := a.script_file, os_detect := a.os_detect,
    decoy := a.decoy, timing := a.timing, ports := a.ports,
    output_normal := a.output_normal, output_xml := a.output_xml,
    output_grep := a.output_grep, output_json := a.output_json }

/-- The configuration step of `main` (src/main.py:102-108):
`if args.interactive or not args.target: cfg = interactive_mode()` — a missing
target (argparse `None`) and an empty target string are both falsy and both
fall back to the interactive source. -/
def mainConfig (a : Args) (ans : Answers) : Option Config :=
  match a.target with
  | none => interactive_mode ans
  | some t =>
    if a.interactive ∨ t = "" then interactive_mode ans
    else some (argsConfig a t)

/-- Observable outcome of the `subprocess.run(cmd, check=True)` block
(src/main.py:111-116): whether `Scan complete.` went to standard output,
whether an `Error: ...` line went to standard error, and this program's own
exit status. -/
structure RunReport where
  scanComplete : Bool
  stderrError : Bool
  exitStatus : Nat
  deriving DecidableEq, Repr

/-- The Process Runner (src/main.py:111-116) as a function of the child's
exit status: `check=True` raises `CalledProcessError` exactly on a non-zero
status, which the handler prints to stderr before `sys.exit(e.returncode)`;
a zero status prints `Scan complete.` and falls off `main` with status 0. -/
def processRunner (childExit : Nat) : RunReport :=
  if childExit = 0 then
    { scanComplete := true, stderrError := false, exitStatus := 0 }
  else
    { scanComplete := false, stderrError := true, exitStatus := childExit }

/-- Observable outcome of one whole run of `main` (src/main.py:102-116),
given the child's exit status: a usage error from argparse stops the run
before any launch; an interactive crash also launches nothing; otherwise the
built command is launched and the Process Runner reports on it. -/
structure Outcome where
  usageError : Bool
  launchedCmd : Option (List String)
  report : Option RunReport
  deriving DecidableEq, Repr

/-- `main` (src/main.py:102-116) end to end: parse, choose the Argument
Source, build the command, run it. -/
def mainModel (r : RawArgs) (ans : Answers) (childExit : Nat) : Outcome :=
  match parse_args r with
  | Except.error _ => { usageError := true, launchedCmd := none, report := none }
  | Except.ok a =>
    match mainConfig a ans with
    | none => { usageError := false, launchedCmd := none, report := none }
    | some cfg =>
      { usageError := false, launchedCmd := some (build_command cfg),
        report := some (processRunner childExit) }

/-- Interactive answer sheet for the spec's worked example: target
`example.com`, scan selection `1,4`, every other prompt left blank. -/
def ansOneFour : Answers :=
  { targetRaw := "example.com", choicesLine := "1,4", skipPingAns := "",
    scriptCatsAns := "", scriptFileAns := "", decoyAns := "",
    timingAns := "", portsAns := "", outputAns := "" }

/-- The Configuration Model the interactive source produces from
`ansOneFour`. -/
def cfgOneFour : Config :=
  { target := "example.com", skip_ping := false, syn_scan := true,
    connect_scan := false, udp_scan := false, version_detect := true,
    script_default := false, script_cats := none, script_file := none,
    os_detect := false, decoy := none, timing := 4, ports := some "1-1000",
    output_normal := some "scan.txt", output_xml := none, output_grep := none,
    output_json := none }

/-- Same session with duplicated scan-type entries. -/
def ansDup : Answers := { ansOneFour with choicesLine := "1,1,4,4" }

/-- Same session with a space after the comma, so the second element of the
split is the unrecognized entry `" 4"`. -/
def ansSpaced : Answers := { ansOneFour with choicesLine := "1, 4" }

/-- The Configuration Model produced from `ansSpaced`: only the SYN flag. -/
def cfgSpaced : Config := { cfgOneFour with version_detect := false }

/-- Same session answering `7` at the timing prompt. -/
def ansSeven : Answers := { ansOneFour with timingAns := "7" }

/-- An interactive session of nothing but blank lines. -/
def ansBlank : Answers :=
  { targetRaw := "", choicesLine := "", skipPingAns := "", scriptCatsAns := "",
    scriptFileAns := "", decoyAns := "", timingAns := "", portsAns := "",
    outputAns := "" }

/-- A parsed non-interactive invocation whose positional target is the bare
scheme `http://`. -/
def argsHttp : Args :=
  { target := some "http://", interactive := false, syn_scan := false,
    connect_scan := false, udp_scan := false, version_detect := false,
    script_default := false, script_cats := none, script_file := none,
    os_detect := false, skip_ping := false, decoy := none, timing := 4,
    ports := none, output_normal := none, output_xml := none,
    output_grep := none, output_json := none }

/-- A parsed invocation with a target but also the `-i` flag. -/
def argsInter : Args := { argsHttp with target := some "example.com", interactive := true }

/-- A Configuration Model with every flag and every optional value set. -/
def cfgFull : Config :=
  { target := "example.com", skip_ping := true, syn_scan := true,
    connect_scan := true, udp_scan := true, version_detect := true,
    script_default := true, script_cats := some "vuln", script_file := some "x.nse",
    os_detect := true, decoy := some "10.0.0.1", timing := 5, ports := some "1-100",
    output_normal := some "n.txt", output_xml := some "x.xml",
    output_grep := some "g.txt", output_json := some "j.json" }

/-- Recognized options of the invocation `main.py example.com -sS -T5`. -/
def rawFive : RawArgs :=
  { target := some "example.com", interactive := false, syn_scan := true,
    connect_scan := false, udp_scan := false, version_detect := false,
    script_default := false, script_cats := none, script_file := none,
    os_detect := false, skip_ping := false, decoy := none, timing := some 5,
    ports := none, output_normal := none, output_xml := none,
    output_grep := none, output_json := none }

/-- What `parse_args` returns on `rawFive`. -/
def argsFive : Args :=
  { target := some "example.com", interactive := false, syn_scan := true,
    connect_scan := false, udp_scan := false, version_detect := false,
    script_default := false, script_cats := none, script_file := none,
    os_detect := false, skip_ping := false, decoy := none, timing := 5,
    ports := none, output_normal := none, output_xml := none,
    output_grep := none, output_json := none }

/-- Same invocation with the out-of-range timing value `-T 9`. -/
def rawNine : RawArgs := { rawFive with timing := some 9 }

/-- On an optional field that is not a present-but-empty string, the Python
truthiness test of `build_command` agrees with the spec's option-presence
test. -/
theorem optTokens_eq_setTokens (f : String) (o : Option String) (h : o ≠ some "") :
    optTokens f o = setTokens f o := by
  cases o with
  | none => rfl
  | some s =>
    have hs : s ≠ "" := fun e => h (by rw [e])
    simp [optTokens, setTokens, hs]

/-- Field-by-field characterization of a successfully finalized interactive
Configuration Model in terms of the answer lines. -/
theorem interactive_mode_some (a : Answers) (cfg : Config)
    (h : interactive_mode a = some cfg) :
    cfg.target = strip_url (pyStrip a.targetRaw) ∧
    cfg.syn_scan = decide ("1" ∈ pySplitComma a.choicesLine) ∧
    cfg.connect_scan = decide ("2" ∈ pySplitComma a.choicesLine) ∧
    cfg.udp_scan = decide ("3" ∈ pySplitComma a.choicesLine) ∧
    cfg.version_detect = decide ("4" ∈ pySplitComma a.choicesLine) ∧
    cfg.os_detect = decide ("5" ∈ pySplitComma a.choicesLine) ∧
    cfg.script_default = decide ("6" ∈ pySplitComma a.choicesLine) ∧
    cfg.script_cats = (if pyStrip a.scriptCatsAns = "" then none else some (pyStrip a.scriptCatsAns)) ∧
    cfg.script_file = (if pyStrip a.scriptFileAns = "" then none else some (pyStrip a.scriptFileAns)) ∧
    cfg.decoy = (if pyStrip a.decoyAns = "" then none else some (pyStrip a.decoyAns)) ∧
    cfg.ports = some (if pyStrip a.portsAns = "" then "1-1000" else pyStrip a.portsAns) ∧
    cfg.output_normal = some (if pyStrip a.outputAns = "" then "scan.txt" else pyStrip a.outputAns) ∧
    cfg.output_xml = none ∧ cfg.output_grep = none ∧ cfg.output_json = none ∧
    (a.timingAns = "" → cfg.timing = 4) := by
  simp only [interactive_mode] at h
  split at h
  · exact Option.noConfusion h
  · rename_i t heq
    injection h with h2
    subst h2
    refine ⟨rfl, rfl, rfl, rfl, rfl, rfl, rfl, rfl, rfl, rfl, rfl, rfl, rfl, rfl, rfl, ?_⟩
    intro he
    rw [if_pos he] at heq
    injection heq with h3
    exact h3.symm

/-- C1: on every Configuration Model whose optional strings are not
present-but-empty (the only ones either Argument Source produces),
`build_command` emits exactly the spec's fixed token sequence — sudo, nmap,
`-Pn`, `-sS`, `-sT`, `-sU`, `-sV`, `-sC`, the two separate `--script`
selectors with categories first, `-O`, `--decoy` list, the timing flag as the
single combined token `-T<level>` (always emitted), `-p` range, the target,
then `-oN`/`-oX`/`-oG`/`-oJ` in that order — with absent flags contributing
no tokens; and the mapping is deterministic: equal inputs give equal token
lists. -/
theorem build_command_meets_spec_order :
    (∀ cfg : Config, noBlankOptionals cfg → build_command cfg = buildCommandSpec cfg) ∧
    (∀ c₁ c₂ : Config, c₁ = c₂ → build_command c₁ = build_command c₂) := by
  constructor
  · intro cfg h
    obtain ⟨h1, h2, h3, h4, h5, h6, h7, h8⟩ := h
    simp only [build_command, buildCommandSpec,
      optTokens_eq_setTokens _ _ h1, optTokens_eq_setTokens _ _ h2,
      optTokens_eq_setTokens _ _ h3, optTokens_eq_setTokens _ _ h4,
      optTokens_eq_setTokens _ _ h5, optTokens_eq_setTokens _ _ h6,
      optTokens_eq_setTokens _ _ h7, optTokens_eq_setTokens _ _ h8]
  · intro c₁ c₂ h
    exact congrArg build_command h

/-- Witness for C1: the fully-populated configuration meets the spec order,
shown with the explicit token list. -/
theorem build_command_meets_spec_order_witness :
    noBlankOptionals cfgFull ∧
    build_command cfgFull = buildCommandSpec cfgFull ∧
    build_command cfgFull = build_command cfgFull ∧
    build_command cfgFull =
      ["sudo", "nmap", "-Pn", "-sS", "-sT", "-sU", "-sV", "-sC",
       "--script", "vuln", "--script", "x.nse", "-O", "--decoy", "10.0.0.1",
       "-T5", "-p", "1-100", "example.com",
       "-oN", "n.txt", "-oX", "x.xml", "-oG", "g.txt", "-oJ", "j.json"] :=
  ⟨by decide, build_command_meets_spec_order.1 cfgFull (by decide),
   build_command_meets_spec_order.2 cfgFull cfgFull rfl, by decide⟩

/-- C2: the Process Runner exits with exactly the child's status, reports
success (`Scan complete.`) on standard output exactly when the child exited
with 0, and reports an error on standard error exactly when the child exited
with a non-zero status. -/
theorem processRunner_propagates_exit (n : Nat) :
    (processRunner n).exitStatus = n ∧
    ((processRunner n).scanComplete = true ↔ n = 0) ∧
    ((processRunner n).stderrError = true ↔ n ≠ 0) := by
  by_cases h : n = 0 <;> simp [processRunner, h]

/-- Witness for C2 at the child statuses 0 and 7. -/
theorem processRunner_propagates_exit_witness :
    (processRunner 7).exitStatus = 7 ∧ (processRunner 0).exitStatus = 0 :=
  ⟨(processRunner_propagates_exit 7).1, (processRunner_propagates_exit 0).1⟩

/-- C3: the Target Normalizer removes one optional leading `http://` or
`https://`, then one optional leading `www.`, and returns the remainder
unchanged: on a string starting with a scheme it strips the scheme and then
behaves as the `www.` stage; on a string starting with neither scheme it is
exactly the `www.` stage; the `www.` stage removes a leading `www.` and is
the identity otherwise; and the three documented examples hold. -/
theorem strip_url_spec :
    (∀ r : String, strip_url ("http://" ++ r) = strip_www r) ∧
    (∀ r : String, strip_url ("https://" ++ r) = strip_www r) ∧
    (∀ s : String, begins "http://".data s.data = false →
      begins "https://".data s.data = false → strip_url s = strip_www s) ∧
    (∀ r : String, strip_www ("www." ++ r) = r) ∧
    (∀ s : String, begins "www.".data s.data = false → strip_www s = s) ∧
    strip_url "https://www.example.com" = "example.com" ∧
    strip_url "www.test.org" = "test.org" ∧
    strip_url "example.com" = "example.com" := by
  refine ⟨fun r => ?_, fun r => ?_, fun s h1 h2 => ?_, fun r => ?_,
    fun s h => ?_, by decide, by decide, by decide⟩
  · cases r; rfl
  · cases r; rfl
  · cases s with
    | mk l =>
      simp only [strip_url, strip_www, stripSchemeChars] at *
      simp [h1, h2]
  · cases r; rfl
  · cases s with
    | mk l => simp [strip_www, stripWwwChars, h]

/-- Witness for C3 on strings with no scheme and no `www.` to strip. -/
theorem strip_url_spec_witness :
    strip_url "example.com" = strip_www "example.com" ∧
    strip_www "test.org" = "test.org" :=
  ⟨strip_url_spec.2.2.1 "example.com" (by decide) (by decide),
   strip_url_spec.2.2.2.2.1 "test.org" (by decide)⟩

/-- C4 counterexample: the claim's range invariant fails for the interactive
Argument Source — answering `7` at the timing prompt finalizes a
Configuration Model with `timingTemplate = 7`, outside [0, 5], because
`interactive_mode` never validates the parsed integer. -/
theorem interactive_timing_escapes_range :
    ¬ (∀ (ans : Answers) (cfg : Config), interactive_mode ans = some cfg →
        0 ≤ cfg.timing ∧ cfg.timing ≤ 5) := by
  intro h
  have h7 : interactive_mode ansSeven = some { cfgOneFour with timing := 7 } := by decide
  have := h ansSeven _ h7
  exact absurd this (by decide)

/-- C4 amended: every Configuration Model produced by the NON-INTERACTIVE
Argument Source has its timing template in the closed range [0, 5], and a
timing value outside that range supplied via the non-interactive path is
rejected with a usage error before any process launch; the interactive path
performs no such validation (see the counterexample). -/
theorem parse_args_timing_range :
    (∀ (r : RawArgs) (a : Args), parse_args r = Except.ok a →
      0 ≤ a.timing ∧ a.timing ≤ 5) ∧
    (∀ (r : RawArgs) (ans : Answers) (childExit : Nat) (t : Int),
      r.timing = some t → ¬(0 ≤ t ∧ t ≤ 5) →
      mainModel r ans childExit =
        { usageError := true, launchedCmd := none, report := none }) := by
  constructor
  · intro r a h
    simp only [parse_args] at h
    split at h
    · rename_i t heq
      split at h
      · rename_i hc
        injection h with h2
        subst h2
        refine ⟨hc.1, ?_⟩
        show t ≤ 5
        omega
      · exact Except.noConfusion h
    · injection h with h2
      subst h2
      show (0 : Int) ≤ 4 ∧ (4 : Int) ≤ 5
      norm_num
  · intro r ans childExit t ht hrange
    have hrange6 : ¬(0 ≤ t ∧ t < 6) := by omega
    have hp : parse_args r = Except.error "argument -T/--timing: invalid choice" := by
      simp only [parse_args, ht]
      rw [if_neg hrange6]
    simp only [mainModel, hp]

/-- Witness for C4's amended statement: `-T 5` yields an in-range
configuration, and `-T 9` makes the whole run stop at a usage error with
nothing launched. -/
theorem parse_args_timing_range_witness :
    (0 ≤ argsFive.timing ∧ argsFive.timing ≤ 5) ∧
    mainModel rawNine ansBlank 0 =
      { usageError := true, launchedCmd := none, report := none } :=
  ⟨parse_args_timing_range.1 rawFive argsFive rfl,
   parse_args_timing_range.2 rawNine ansBlank 0 9 rfl (by decide)⟩

/-- C5 counterexample: the claim's target invariant fails — the raw
non-interactive target `http://` is a non-empty (truthy) string, so it does
not fall back to interactive mode, and the normalizer strips the whole of it,
finalizing a Configuration Model whose target is the empty string. -/
theorem finalized_target_invariant_fails :
    ¬ (∀ (a : Args) (ans : Answers) (cfg : Config), mainConfig a ans = some cfg →
        cfg.target ≠ "" ∧ begins "http://".data cfg.target.data = false ∧
        begins "https://".data cfg.target.data = false ∧
        begins "www.".data cfg.target.data = false) := by
  intro h
  have hm : mainConfig argsHttp ansBlank = some (argsConfig argsHttp "http://") := by decide
  exact (h argsHttp ansBlank _ hm).1 (by decide)

/-- C5 amended: in every finalized Configuration Model, the target is the
Target Normalizer applied exactly once to the raw target (the stripped
interactive response, or the positional argument); since the normalizer
removes at most one scheme and one `www.` prefix and never validates, the
result can be empty or retain a scheme or a leading `www.` when the raw
input is a bare prefix or stacks prefixes. -/
theorem mainConfig_target_normalized :
    ∀ (a : Args) (ans : Answers) (cfg : Config), mainConfig a ans = some cfg →
      cfg.target = strip_url (pyStrip ans.targetRaw) ∨
      (∃ t, a.target = some t ∧ cfg.target = strip_url t) := by
  intro a ans cfg h
  cases ha : a.target with
  | none =>
    simp only [mainConfig, ha] at h
    exact Or.inl (interactive_mode_some ans cfg h).1
  | some t =>
    simp only [mainConfig, ha] at h
    by_cases hi : a.interactive = true ∨ t = ""
    · rw [if_pos hi] at h
      exact Or.inl (interactive_mode_some ans cfg h).1
    · rw [if_neg hi] at h
      injection h with h2
      subst h2
      exact Or.inr ⟨t, rfl, rfl⟩

/-- Witness for C5's amended statement on a concrete non-interactive run. -/
theorem mainConfig_target_normalized_witness :
    (argsConfig argsFive "example.com").target = strip_url (pyStrip ansBlank.targetRaw) ∨
    (∃ t, argsFive.target = some t ∧
      (argsConfig argsFive "example.com").target = strip_url t) :=
  mainConfig_target_normalized argsFive ansBlank (argsConfig argsFive "example.com") (by decide)

/-- C6: each boolean scan flag of an interactively finalized Configuration
Model equals the exact-membership test of its digit (1=SYN, 2=Connect,
3=UDP, 4=VersionDetect, 5=OSDetect, 6=DefaultScripts) in the comma-split
selection line — so unrecognized entries are silently ignored and duplicates
have no further effect; the input `1,4` sets exactly `syn_scan` and
`version_detect`; and the duplicated line `1,1,4,4` finalizes the very same
Configuration Model as `1,4`. -/
theorem interactive_scan_selection :
    (∀ (ans : Answers) (cfg : Config), interactive_mode ans = some cfg →
      cfg.syn_scan = decide ("1" ∈ pySplitComma ans.choicesLine) ∧
      cfg.connect_scan = decide ("2" ∈ pySplitComma ans.choicesLine) ∧
      cfg.udp_scan = decide ("3" ∈ pySplitComma ans.choicesLine) ∧
      cfg.version_detect = decide ("4" ∈ pySplitComma ans.choicesLine) ∧
      cfg.os_detect = decide ("5" ∈ pySplitComma ans.choicesLine) ∧
      cfg.script_default = decide ("6" ∈ pySplitComma ans.choicesLine)) ∧
    (∀ cfg : Config, interactive_mode ansOneFour = some cfg →
      cfg.syn_scan = true ∧ cfg.version_detect = true ∧
      cfg.connect_scan = false ∧ cfg.udp_scan = false ∧
      cfg.os_detect = false ∧ cfg.script_default = false) ∧
    (∀ cfg cfg' : Config, interactive_mode ansOneFour = some cfg →
      interactive_mode ansDup = some cfg' → cfg = cfg') := by
  refine ⟨fun ans cfg h => ?_, fun cfg h => ?_, fun cfg cfg' h h' => ?_⟩
  · obtain ⟨-, e1, e2, e3, e4, e5, e6, -⟩ := interactive_mode_some ans cfg h
    exact ⟨e1, e2, e3, e4, e5, e6⟩
  · have e : interactive_mode ansOneFour = some cfgOneFour := by decide
    rw [e] at h
    injection h with h2
    subst h2
    decide
  · have e : interactive_mode ansOneFour = some cfgOneFour := by decide
    have e' : interactive_mode ansDup = some cfgOneFour := by decide
    rw [e] at h
    rw [e'] at h'
    injection h with h2
    injection h' with h3
    rw [← h2, ← h3]

/-- Witness for C6: the `1,4` session sets exactly SYN and version
detection. -/
theorem interactive_scan_selection_witness :
    cfgOneFour.syn_scan = true ∧ cfgOneFour.version_detect = true ∧
    cfgOneFour.connect_scan = false ∧ cfgOneFour.udp_scan = false ∧
    cfgOneFour.os_detect = false ∧ cfgOneFour.script_default = false :=
  interactive_scan_selection.2.1 cfgOneFour (by decide)

/-- C7: blank interactive free-text responses produce the documented
defaults rather than empty strings — absent script categories, script file
and decoys, port range `1-1000`, normal-output file `scan.txt`, timing
template 4 — and the XML, grepable and JSON output paths, never prompted
for, are always absent. -/
theorem interactive_blank_defaults (ans : Answers) (cfg : Config)
    (h : interactive_mode ans = some cfg) :
    (pyStrip ans.scriptCatsAns = "" → cfg.script_cats = none) ∧
    (pyStrip ans.scriptFileAns = "" → cfg.script_file = none) ∧
    (pyStrip ans.decoyAns = "" → cfg.decoy = none) ∧
    (pyStrip ans.portsAns = "" → cfg.ports = some "1-1000") ∧
    (pyStrip ans.outputAns = "" → cfg.output_normal = some "scan.txt") ∧
    (ans.timingAns = "" → cfg.timing = 4) ∧
    cfg.output_xml = none ∧ cfg.output_grep = none ∧ cfg.output_json = none := by
  obtain ⟨-, -, -, -, -, -, -, e8, e9, e10, e11, e12, e13, e14, e15, e16⟩ :=
    interactive_mode_some ans cfg h
  refine ⟨fun hb => ?_, fun hb => ?_, fun hb => ?_, fun hb => ?_, fun hb => ?_,
    e16, e13, e14, e15⟩
  · rw [e8, if_pos hb]
  · rw [e9, if_pos hb]
  · rw [e10, if_pos hb]
  · rw [e11, if_pos hb]
  · rw [e12, if_pos hb]

/-- Witness for C7 on the all-blank-but-target-and-scans session. -/
theorem interactive_blank_defaults_witness :
    cfgOneFour.script_cats = none ∧ cfgOneFour.script_file = none ∧
    cfgOneFour.decoy = none ∧ cfgOneFour.ports = some "1-1000" ∧
    cfgOneFour.output_normal = some "scan.txt" ∧ cfgOneFour.timing = 4 ∧
    cfgOneFour.output_xml = none := by
  have h := interactive_blank_defaults ansOneFour cfgOneFour (by decide)
  exact ⟨h.1 (by decide), h.2.1 (by decide), h.2.2.1 (by decide),
    h.2.2.2.1 (by decide), h.2.2.2.2.1 (by decide), h.2.2.2.2.2.1 rfl,
    h.2.2.2.2.2.2.1⟩

/-- C8: whenever the interactive flag is given, or no target was supplied
(argparse `None`), or the supplied target is the falsy empty string, the
configuration step hands control to the Interactive Argument Source instead
of failing: the Configuration Model is exactly the interactive one. -/
theorem missing_target_falls_back (a : Args) (ans : Answers)
    (h : a.interactive = true ∨ a.target = none ∨ a.target = some "") :
    mainConfig a ans = interactive_mode ans := by
  rcases h with hi | hn | he
  · cases ha : a.target with
    | none => simp [mainConfig, ha]
    | some t => simp [mainConfig, ha, hi]
  · simp [mainConfig, hn]
  · simp [mainConfig, he]

/-- Witness for C8: the `-i` flag forces the interactive source even with a
target present. -/
theorem missing_target_falls_back_witness :
    mainConfig argsInter ansBlank = interactive_mode ansBlank :=
  missing_target_falls_back argsInter ansBlank (Or.inl rfl)

/-- C9: an optional string field holding the empty string is treated by
`build_command` exactly like an absent value: for each of the eight optional
fields, the token list built with that field empty equals the one built with
it absent. -/
theorem build_command_blank_equals_absent (cfg : Config) :
    build_command { cfg with script_cats := some "" } =
      build_command { cfg with script_cats := none } ∧
    build_command { cfg with script_file := some "" } =
      build_command { cfg with script_file := none } ∧
    build_command { cfg with decoy := some "" } =
      build_command { cfg with decoy := none } ∧
    build_command { cfg with ports := some "" } =
      build_command { cfg with ports := none } ∧
    build_command { cfg with output_normal := some "" } =
      build_command { cfg with output_normal := none } ∧
    build_command { cfg with output_xml := some "" } =
      build_command { cfg with output_xml := none } ∧
    build_command { cfg with output_grep := some "" } =
      build_command { cfg with output_grep := none } ∧
    build_command { cfg with output_json := some "" } =
      build_command { cfg with output_json := none } := by
  refine ⟨?_, ?_, ?_, ?_, ?_, ?_, ?_, ?_⟩ <;> simp [build_command, optTokens]

/-- Witness for C9 at a concrete configuration. -/
theorem build_command_blank_equals_absent_witness :
    build_command { cfgOneFour with script_cats := some "" } =
      build_command { cfgOneFour with script_cats := none } :=
  (build_command_blank_equals_absent cfgOneFour).1

/-- C10: interactive scan-type entries are matched exactly, with no
whitespace trimming: a digit sets its flag if and only if it occurs verbatim
as an element of the comma-split line; the line `1, 4` splits into `"1"` and
the unrecognized `" 4"`, so it sets only the SYN flag and leaves version
detection off. -/
theorem scan_selection_exact_tokens :
    (∀ (ans : Answers) (cfg : Config), interactive_mode ans = some cfg →
      (cfg.version_detect = true ↔ "4" ∈ pySplitComma ans.choicesLine)) ∧
    pySplitComma "1, 4" = ["1", " 4"] ∧
    (∀ cfg : Config, interactive_mode ansSpaced = some cfg →
      cfg.syn_scan = true ∧ cfg.connect_scan = false ∧ cfg.udp_scan = false ∧
      cfg.version_detect = false ∧ cfg.os_detect = false ∧
      cfg.script_default = false) := by
  refine ⟨fun ans cfg h => ?_, by decide, fun cfg h => ?_⟩
  · obtain ⟨-, -, -, -, e4, -⟩ := interactive_mode_some ans cfg h
    rw [e4]
    exact ⟨of_decide_eq_true, fun hm => decide_eq_true hm⟩
  · have e : interactive_mode ansSpaced = some cfgSpaced := by decide
    rw [e] at h
    injection h with h2
    subst h2
    decide

/-- Witness for C10: the spaced session sets only the SYN flag. -/
theorem scan_selection_exact_tokens_witness :
    cfgSpaced.syn_scan = true ∧ cfgSpaced.connect_scan = false ∧
    cfgSpaced.udp_scan = false ∧ cfgSpaced.version_detect = false ∧
    cfgSpaced.os_detect = false ∧ cfgSpaced.script_default = false :=
  scan_selection_exact_tokens.2.2 cfgSpaced (by decide)

end NmapToolKit
